import Mathlib

/-!
# Verification of the rslisp evaluator

A shallow embedding of the evaluator and its data model (`src/evaluator.rs`,
`src/parser.rs`, `src/location.rs`) together with theorems settling the
specification claims about it.

Conventions of the embedding:
* Rust `Result<Object, String>` error strings are represented by the
  inductive `EvalErr`, one constructor per `Err(format!(...))` site, each
  carrying the data interpolated into the format string.
* The panicking macros `unreachable!()`, `unimplemented!()` and `todo!()`
  are represented by the outcome `EvalOutcome.panic` with a `PanicKind`
  naming the site.  `eval_function_definition`, whose body computes its two
  operands and then ends without producing a value (it does not typecheck in
  Rust), is likewise represented by a `PanicKind` marking it as incomplete.
* `Rc<RefCell<Environment>>` mutation is represented by threading the
  `Environment` value through evaluation and returning the updated one:
  during evaluation the source never constructs a second environment and
  never mutates any environment other than the one threaded through
  (`eval_function_call`, the only creator of call frames, is `todo!()`), so
  a single threaded value is an exact model of the single shared cell.
* `i128` integers are modeled as `Int` (no arithmetic is ever performed on
  them by the code under analysis), `f64` payloads as an opaque carrier
  `F64` (no float operation is ever performed; only identity matters).
* `HashMap<String, Object>` is modeled as an association list with
  `List.lookup` / overwrite-insert, which has the same lookup semantics.
-/

/-- `src/location.rs`: `Location { filename: Option<String>, rol, col }`.
(`src/evaluator.rs` was written against an older revision whose `new` took a
plain `String`; its call `Location::new("__builtin__", 0, 0)` is embedded as
`some "__builtin__"`.) -/
structure Location where
  filename : Option String
  rol : Nat
  col : Nat
deriving DecidableEq, Repr

/-- `Location::new`. -/
def Location.new (filename : Option String) (rol col : Nat) : Location :=
  ⟨filename, rol, col⟩

/-- Opaque carrier standing for Rust `f64` payloads: the evaluator under
analysis never computes with floats (every builtin is `todo!()`), so only
the identity of the payload can be observed. -/
structure F64 where
  bits : Nat
deriving DecidableEq, Repr

/-- `src/evaluator.rs` constructs `Param { kind: ParamKind::Variadic, loc }`;
`Variadic` is the only `ParamKind` constructor appearing anywhere under
`src/`. -/
inductive ParamKind where
  | variadic
deriving DecidableEq, Repr

/-- `Param { kind: ParamKind, loc: Option<Location> }` as used by
`src/evaluator.rs` (`create_builtin_funcdef`). -/
structure Param where
  kind : ParamKind
  loc : Option Location
deriving DecidableEq, Repr

mutual
/-- `src/parser.rs`: `enum Object`.  The `Module` variant is matched by
`eval_obj` in `src/evaluator.rs` alongside `List` and is included as such. -/
inductive Object where
  | void (loc : Option Location)
  | integer (value : Int) (loc : Option Location)
  | float (value : F64) (loc : Option Location)
  | bool (value : Bool) (loc : Option Location)
  | str (value : String) (loc : Option Location)
  | symbol (value : String) (loc : Option Location)
  | lambda (value : FunctionDefinition) (loc : Option Location)
  | list (value : List Object) (loc : Option Location)
  | module (value : List Object) (loc : Option Location)

/-- `FunctionDefinition { params: Vec<Param>, body: FunctionBody }` as
constructed by `src/evaluator.rs` (`create_builtin_funcdef`).  Note: it has
no field for a defining environment. -/
inductive FunctionDefinition where
  | mk (params : List Param) (body : FunctionBody)

/-- `src/parser.rs`: `struct FunctionBody(Vec<Object>)`. -/
inductive FunctionBody where
  | mk (value : List Object)
end

def FunctionDefinition.params : FunctionDefinition → List Param
  | .mk p _ => p

def FunctionDefinition.body : FunctionDefinition → FunctionBody
  | .mk _ b => b

def FunctionBody.value : FunctionBody → List Object
  | .mk v => v

/-- `Object::loc` from `src/parser.rs`: every variant's own `loc` field. -/
def Object.loc : Object → Option Location
  | .void l => l
  | .integer _ l => l
  | .float _ l => l
  | .bool _ l => l
  | .str _ l => l
  | .symbol _ l => l
  | .lambda _ l => l
  | .list _ l => l
  | .module _ l => l

/-- `src/evaluator.rs`: `Environment { parent: Option<Rc<RefCell<Environment>>>,
vars: HashMap<String, Object> }`. -/
inductive Environment where
  | mk (parent : Option Environment) (vars : List (String × Object))

def Environment.parent : Environment → Option Environment
  | .mk p _ => p

def Environment.vars : Environment → List (String × Object)
  | .mk _ v => v

/-- `Environment::create_builtin_funcdef`: a `Lambda` whose single variadic
parameter carries the `"__builtin__"` sentinel location, and whose own `loc`
field is `None`. -/
def Environment.create_builtin_funcdef : Object :=
  Object.lambda
    (FunctionDefinition.mk
      [{ kind := ParamKind.variadic,
         loc := some (Location.new (some "__builtin__") 0 0) }]
      (FunctionBody.mk []))
    none

/-- `Environment::is_builtin`: `object.loc().and_then(|l| Some(l.filename()
== "__builtin__")).unwrap_or(false)` — decided purely from the object's own
source-location data. -/
def Environment.is_builtin (object : Object) : Bool :=
  ((object.loc).map (fun l => l.filename == some "__builtin__")).getD false

/-- `Environment::new`: every constructed environment — whatever its parent —
gets `vars` seeded with the 11 builtin operator names. -/
def Environment.new (parent : Option Environment) : Environment :=
  Environment.mk parent
    [ ("+", Environment.create_builtin_funcdef),
      ("-", Environment.create_builtin_funcdef),
      ("*", Environment.create_builtin_funcdef),
      ("/", Environment.create_builtin_funcdef),
      ("%", Environment.create_builtin_funcdef),
      (">", Environment.create_builtin_funcdef),
      ("<", Environment.create_builtin_funcdef),
      ("=", Environment.create_builtin_funcdef),
      (">=", Environment.create_builtin_funcdef),
      ("<=", Environment.create_builtin_funcdef),
      ("/=", Environment.create_builtin_funcdef) ]

/-- `Environment::get`: local lookup first, then delegate to the parent. -/
def Environment.get : Environment → String → Option Object
  | .mk parent vars, name =>
    match vars.lookup name with
    | some value => some value
    | none =>
      match parent with
      | some e => e.get name
      | none => none

/-- `Environment::set`: `self.vars.insert(name, obj)` — insert or overwrite
in the local table only, never in the parent. -/
def Environment.set : Environment → String → Object → Environment
  | .mk parent vars, name, obj =>
    Environment.mk parent ((name, obj) :: vars.filter (fun p => p.1 ≠ name))

/-- One constructor per `Err(format!(...))` site in `src/evaluator.rs`, each
carrying the data interpolated into the message. -/
inductive EvalErr where
  | symbolNotFound (s : String)
  | emptyDefineOperands
  | expectSymbol (found : Object)
  | missingBinding (loc : Option Location)
  | followUpNotFound

/-- One constructor per site in `src/evaluator.rs` at which evaluation can
produce no value at all: the `unreachable!()` in `eval_list`, the
`unimplemented!()` in `eval_if`, the `todo!()` bodies, and the body of
`eval_function_definition`, which computes its two operands and then ends
without returning anything. -/
inductive PanicKind where
  | unreachableListHead
  | unimplementedCondition
  | incompleteFunctionDefinition
  | todoFunctionCall
  | todoBuiltinFunc
  | todoBuiltinPlusFunc

/-- Observable outcome of running an evaluator function: an `Ok` value, an
`Err` (see `EvalErr`), or a panic / missing-result site (see `PanicKind`). -/
inductive EvalOutcome where
  | ok (obj : Object)
  | error (e : EvalErr)
  | panic (p : PanicKind)

/-- `eval_symbol`: `env.get(s)`, `Symbol not found` on a miss. -/
def eval_symbol (s : String) (env : Environment) : EvalOutcome × Environment :=
  match env.get s with
  | some o => (.ok o, env)
  | none => (.error (.symbolNotFound s), env)

/-- `eval_function_definition`: the source binds `params := list.first()` and
`body := list.get(1)` and then ends with no result expression, so it can
produce no value (its body does not typecheck in Rust). -/
def eval_function_definition (_list : List Object) (env : Environment) :
    EvalOutcome × Environment :=
  (.panic .incompleteFunctionDefinition, env)

/-- `eval_function_call`: `todo!()`. -/
def eval_function_call (_list : List Object) (env : Environment) :
    EvalOutcome × Environment :=
  (.panic .todoFunctionCall, env)

/-- `eval_builtin_func`: `todo!()`. -/
def eval_builtin_func (_list : List Object) (env : Environment) :
    EvalOutcome × Environment :=
  (.panic .todoBuiltinFunc, env)

/-- `eval_builtin_plus_func`: `todo!()`. -/
def eval_builtin_plus_func (_list : List Object) (env : Environment) :
    EvalOutcome × Environment :=
  (.panic .todoBuiltinPlusFunc, env)

mutual
/-- `eval_obj`: dispatch on the expression shape.  `Void`, `Lambda`, `Bool`,
`Integer`, `Float`, `Str` are returned unchanged; `Symbol` is looked up;
`List` and `Module` go to `eval_list`. -/
def eval_obj (obj : Object) (env : Environment) : EvalOutcome × Environment :=
  match obj with
  | .void _ | .lambda _ _ | .bool _ _ | .integer _ _ | .float _ _
  | .str _ _ => (.ok obj, env)
  | .symbol s _ => eval_symbol s env
  | .list value _ => eval_list value env
  | .module value _ => eval_list value env
termination_by sizeOf obj
decreasing_by
  all_goals simp_wf
  all_goals omega

/-- `eval_list`: dispatch on the first element.  Only a `Symbol` head is
handled; an empty list yields `Void`; any other head is `unreachable!()`.
The operand slice `&list[1..]` is passed to the special-form handlers. -/
def eval_list (list : List Object) (env : Environment) :
    EvalOutcome × Environment :=
  match list with
  | [] => (.ok (.void none), env)
  | first :: rest =>
    match first with
    | .symbol value _ =>
      match value with
      | "define" => eval_define rest env
      | "if" => eval_if rest env
      | "lambda" => eval_function_definition rest env
      | _ => eval_function_call rest env
    | _ => (.panic .unreachableListHead, env)
termination_by sizeOf list
decreasing_by
  all_goals simp_wf

/-- `eval_define`: `Err("")` when no operand is present; `Expect Symbol` when
the first operand is not a `Symbol`; `Expect binding` when the second operand
is absent; otherwise evaluate the second operand in the current environment,
`env.set` the result under the symbol's name, and return `Void`. -/
def eval_define (list : List Object) (env : Environment) :
    EvalOutcome × Environment :=
  match list with
  | [] => (.error .emptyDefineOperands, env)
  | object :: rest =>
    match object with
    | .symbol name _ =>
      match h : rest[0]? with
      | some obj =>
        match eval_obj obj env with
        | (.ok val, env1) => (.ok (.void none), env1.set name val)
        | other => other
      | none => (.error (.missingBinding object.loc), env)
    | _ => (.error (.expectSymbol object), env)
termination_by sizeOf list
decreasing_by
  simp_wf
  have hs := List.sizeOf_lt_of_mem (List.getElem?_mem h)
  omega

/-- `eval_if`: the condition operand is only pattern-matched — a `Bool`
literal selects `list.get(1)` or `list.get(2)`, any other present operand is
`unimplemented!()`, and an absent operand behaves like a false condition
whose `list.get(2)` is also absent.  A missing selected branch is the
`follow-up action not found` error. -/
def eval_if (list : List Object) (env : Environment) :
    EvalOutcome × Environment :=
  match list with
  | [] => (.error .followUpNotFound, env)
  | condObj :: rest =>
    match condObj with
    | .bool value _ =>
      match h : (if value then rest[0]? else rest[1]?) with
      | some o => eval_obj o env
      | none => (.error .followUpNotFound, env)
    | _ => (.panic .unimplementedCondition, env)
termination_by sizeOf list
decreasing_by
  simp_wf
  split at h
  all_goals
    have hs := List.sizeOf_lt_of_mem (List.getElem?_mem h)
  all_goals omega
end

/-- `eval`: the host entry point, delegating to `eval_obj`. -/
def eval (object : Object) (env : Environment) : EvalOutcome × Environment :=
  eval_obj object env

/-! ## General lemmas about the evaluator -/

/-- Second components of equal pairs are equal (tuple results of the
evaluator). -/
theorem pair_eq_env {a b : EvalOutcome} {e1 e2 : Environment}
    (h : (a, e1) = (b, e2)) : e2 = e1 :=
  (congrArg Prod.snd h).symm

/-- Whenever `eval_obj` returns an `Err`, the environment it hands back is
exactly the environment it was given: every `Err(..)` site in the evaluator
runs before any `env.set`, and errors propagate without further mutation. -/
theorem eval_obj_error_env_stable :
    ∀ (obj : Object) (env : Environment) (e : EvalErr) (env' : Environment),
      eval_obj obj env = (.error e, env') → env' = env := by
  refine eval_obj.induct
    (fun obj env => ∀ e env', eval_obj obj env = (.error e, env') → env' = env)
    (fun l env => ∀ e env', eval_list l env = (.error e, env') → env' = env)
    (fun l env => ∀ e env', eval_if l env = (.error e, env') → env' = env)
    (fun l env => ∀ e env', eval_define l env = (.error e, env') → env' = env)
    ?_ ?_ ?_ ?_ ?_ ?_ ?_ ?_ ?_ ?_ ?_ ?_ ?_ ?_ ?_ ?_ ?_ ?_ ?_ ?_ ?_ ?_ ?_ ?_
  · intro env loc e env' h
    simp [eval_obj] at h
  · intro env fd loc e env' h
    simp [eval_obj] at h
  · intro env b loc e env' h
    simp [eval_obj] at h
  · intro env i loc e env' h
    simp [eval_obj] at h
  · intro env f loc e env' h
    simp [eval_obj] at h
  · intro env s loc e env' h
    simp [eval_obj] at h
  · intro env s loc e env' h
    simp only [eval_obj, eval_symbol] at h
    split at h
    · simp at h
    · exact pair_eq_env h
  · intro env value loc ih e env' h
    simp only [eval_obj] at h
    exact ih e env' h
  · intro env value loc ih e env' h
    simp only [eval_obj] at h
    exact ih e env' h
  · intro env e env' h
    simp [eval_list] at h
  · intro env rest loc ih e env' h
    simp only [eval_list] at h
    exact ih e env' h
  · intro env rest loc ih e env' h
    simp only [eval_list] at h
    exact ih e env' h
  · intro env rest loc e env' h
    simp [eval_list, eval_function_definition] at h
  · intro env rest value loc h1 h2 h3 e env' h
    simp only [eval_list, h1, h2, h3, eval_function_call] at h
    simp at h
  · intro env first rest hns e env' h
    cases first
    case symbol v l => exact ((hns v l rfl).elim : env' = env)
    all_goals simp [eval_list] at h
  · intro env e env' h
    simp only [eval_if] at h
    exact pair_eq_env h
  · intro env rest value loc obj hidx ih e env' h
    simp only [dite_eq_ite] at hidx
    simp only [eval_if] at h
    split at h
    · rename_i o heq
      rw [hidx] at heq
      cases heq
      exact ih e env' h
    · rename_i heq
      rw [hidx] at heq
      cases heq
  · intro env rest value loc hidx e env' h
    simp only [dite_eq_ite] at hidx
    simp only [eval_if] at h
    split at h
    · rename_i o heq
      rw [hidx] at heq
      cases heq
    · exact pair_eq_env h
  · intro env first rest hnb e env' h
    cases first
    case bool v l => exact ((hnb v l rfl).elim : env' = env)
    all_goals simp [eval_if] at h
  · intro env e env' h
    simp only [eval_define] at h
    exact pair_eq_env h
  · intro env rest value loc obj hidx val env1 hok ih e env' h
    simp only [eval_define] at h
    split at h
    · rename_i o heq
      rw [hidx] at heq
      cases heq
      rw [hok] at h
      simp at h
    · rename_i heq
      rw [hidx] at heq
      cases heq
  · intro env rest value loc obj hidx hno ih e env' h
    simp only [eval_define] at h
    split at h
    · rename_i o heq
      rw [hidx] at heq
      cases heq
      cases hres : eval_obj obj env with
      | mk out env2 =>
        rw [hres] at h
        cases out with
        | ok o2 => exact ((hno o2 env2 hres).elim : env' = env)
        | error e2 =>
          have h' : ((EvalOutcome.error e2, env2) : EvalOutcome × Environment)
              = (.error e, env') := h
          exact (pair_eq_env h').trans (ih e2 env2 hres)
        | panic p =>
          have h' : ((EvalOutcome.panic p, env2) : EvalOutcome × Environment)
              = (.error e, env') := h
          simp at h'
    · rename_i heq
      rw [hidx] at heq
      cases heq
  · intro env rest value loc hidx e env' h
    simp only [eval_define] at h
    split at h
    · rename_i o heq
      rw [hidx] at heq
      cases heq
    · exact pair_eq_env h
  · intro env first rest hns e env' h
    cases first
    case symbol v l => exact ((hns v l rfl).elim : env' = env)
    all_goals
      simp only [eval_define] at h
      exact pair_eq_env h

/-! ## Claims -/

/-- C1: the spec's `if` semantics (condition always evaluated, `TypeMismatch`
on a non-Bool result, `Void` on a false condition with no else-operand) does
not hold of the source: `eval_if` errors with `follow-up action not found`
on `(if false 1)` instead of returning `Void`, and panics via
`unimplemented!()` on any non-literal condition such as `(if (< 1 2) 1 2)`
instead of evaluating it. -/
theorem c1_if_errors_on_missing_else_and_panics_on_compound_condition :
    ∀ env : Environment,
      eval_obj (.list [.symbol "if" none, .bool false none,
          .integer 1 none] none) env
        = (.error .followUpNotFound, env)
      ∧ eval_obj (.list [.symbol "if" none,
          .list [.symbol "<" none, .integer 1 none, .integer 2 none] none,
          .integer 1 none, .integer 2 none] none) env
        = (.panic .unimplementedCondition, env) := by
  intro env
  constructor
  · simp [eval_obj, eval_list, eval_if]
    rfl
  · simp [eval_obj, eval_list, eval_if]

/-- C2: the spec requires `(lambda ...)` to return a `Closure` capturing the
current environment as `defining_environment`; in the source
`eval_function_definition` is an unfinished stub that produces no value at
all, and the `FunctionDefinition` payload of a `Lambda` has no environment
field whatsoever (it is fully determined by its parameter list and body). -/
theorem c2_lambda_incomplete_and_closures_capture_no_environment :
    ∀ env : Environment,
      eval_obj (.list [.symbol "lambda" none, .list [.symbol "x" none] none,
          .symbol "x" none] none) env
        = (.panic .incompleteFunctionDefinition, env)
      ∧ (∀ fd g : FunctionDefinition,
          fd.params = g.params → fd.body = g.body → fd = g) := by
  intro env
  constructor
  · simp [eval_obj, eval_list, eval_function_definition]
  · intro fd g hp hb
    cases fd with
    | mk p b =>
      cases g with
      | mk q c =>
        simp only [FunctionDefinition.params, FunctionDefinition.body] at hp hb
        rw [hp, hb]

/-- C2 witness: the theorem applied at the root environment and at a concrete
pair of equal-component `FunctionDefinition`s. -/
theorem c2_lambda_incomplete_witness :
    eval_obj (.list [.symbol "lambda" none, .list [.symbol "x" none] none,
        .symbol "x" none] none) (Environment.new none)
      = (.panic .incompleteFunctionDefinition, Environment.new none)
    ∧ FunctionDefinition.mk [] (.mk []) = FunctionDefinition.mk [] (.mk []) :=
  ⟨(c2_lambda_incomplete_and_closures_capture_no_environment
      (Environment.new none)).1,
    (c2_lambda_incomplete_and_closures_capture_no_environment
      (Environment.new none)).2 _ _ rfl rfl⟩

/-- C3: contrary to the spec, builtin-ness is decided from the
`"__builtin__"` sentinel filename in the value's own source-location data —
`Environment::is_builtin` answers `true` for a mere `Bool` carrying that
location and `false` for the actual builtin closure value — and no
`is_builtin` tag exists anywhere in the data model. -/
theorem c3_builtin_decision_is_location_sentinel_not_tag :
    Environment.is_builtin
        (.bool true (some (Location.new (some "__builtin__") 0 0))) = true
    ∧ Environment.is_builtin Environment.create_builtin_funcdef = false := by
  exact ⟨rfl, rfl⟩

/-- C4 counterexample: a non-root environment (one constructed with a parent)
has a non-empty local bindings table — it resolves `"+"` locally, without
delegating to its parent chain — so `Environment::new` does not create empty
local bindings for non-root environments. -/
theorem c4_child_environment_locally_seeded :
    (Environment.new (some (Environment.new none))).vars.lookup "+"
      = some Environment.create_builtin_funcdef
    ∧ (Environment.new (some (Environment.new none))).vars ≠ [] := by
  constructor
  · rfl
  · simp [Environment.new, Environment.vars]

/-- C4 (amended): `Environment::new(p)` seeds the 11 builtin operator names
into the local bindings of every environment it constructs, root and
non-root alike, so any environment resolves an operator name like `"+"`
locally. -/
theorem c4_every_environment_seeded_with_builtins :
    ∀ (parent : Option Environment) (name : String),
      name ∈ ["+", "-", "*", "/", "%", ">", "<", "=", ">=", "<=", "/="] →
      (Environment.new parent).vars.lookup name
          = some Environment.create_builtin_funcdef
      ∧ (Environment.new parent).get name
          = some Environment.create_builtin_funcdef := by
  intro parent name hmem
  fin_cases hmem <;> exact ⟨rfl, by simp [Environment.new, Environment.get]⟩

/-- C4 witness: the amended theorem applied to `"+"` in a child of the root
environment. -/
theorem c4_seeding_witness :
    "+" ∈ ["+", "-", "*", "/", "%", ">", "<", "=", ">=", "<=", "/="]
    ∧ (Environment.new (some (Environment.new none))).get "+"
        = some Environment.create_builtin_funcdef := by
  refine ⟨by simp, ?_⟩
  exact (c4_every_environment_seeded_with_builtins
    (some (Environment.new none)) "+" (by simp)).2

/-- C5: the spec requires a non-`Closure` head of an application to fail with
`NotCallable` and never panic; the source instead hits `unreachable!()` in
`eval_list` for every non-symbol head (integer head, nested-list head), and
`todo!()` in `eval_function_call` for symbol heads, so no `NotCallable` path
exists. -/
theorem c5_application_panics_never_notcallable :
    ∀ env : Environment,
      eval_obj (.list [.integer 1 none, .integer 2 none] none) env
        = (.panic .unreachableListHead, env)
      ∧ eval_obj (.list [.list [.symbol "lambda" none, .list [] none,
          .integer 1 none] none, .integer 2 none] none) env
        = (.panic .unreachableListHead, env)
      ∧ eval_obj (.list [.symbol "f" none, .integer 1 none] none) env
        = (.panic .todoFunctionCall, env) := by
  intro env
  refine ⟨by simp [eval_obj, eval_list], by simp [eval_obj, eval_list],
    by simp [eval_obj, eval_list, eval_function_call]⟩

/-- C6: the spec requires `(/ 1 0)` and `(% 1 0)` to fail with
`DivisionByZero`; the source panics in `todo!()` (`eval_function_call`)
before any builtin dispatch, and `eval_builtin_func` itself is `todo!()`,
so no `DivisionByZero` outcome is ever produced. -/
theorem c6_division_by_zero_reaches_todo_panic :
    ∀ env : Environment,
      eval_obj (.list [.symbol "/" none, .integer 1 none,
          .integer 0 none] none) env
        = (.panic .todoFunctionCall, env)
      ∧ eval_obj (.list [.symbol "%" none, .integer 1 none,
          .integer 0 none] none) env
        = (.panic .todoFunctionCall, env)
      ∧ (∀ l : List Object,
          eval_builtin_func l env = (.panic .todoBuiltinFunc, env)) := by
  intro env
  refine ⟨by simp [eval_obj, eval_list, eval_function_call],
    by simp [eval_obj, eval_list, eval_function_call],
    fun l => rfl⟩

/-- C7 counterexample: on `(define)` — second operand certainly absent — the
source fails with the empty-message error `Err("")`, which is not the
`MissingBinding` error the claim requires for an absent second operand. -/
theorem c7_empty_define_error_is_not_missing_binding :
    eval_obj (.list [.symbol "define" none] none) (Environment.new none)
      = (.error .emptyDefineOperands, Environment.new none)
    ∧ EvalErr.emptyDefineOperands ≠ EvalErr.missingBinding none := by
  constructor
  · simp [eval_obj, eval_list, eval_define]
  · intro hc
    cases hc

/-- C7 (amended): with an empty operand list `eval_define` fails with the
empty-message error; with a present first operand that is not a `Symbol` it
fails with `ExpectedSymbol`; with a `Symbol` first operand and no second
operand it fails with `MissingBinding` carrying the symbol's location;
otherwise it evaluates the second operand in the current environment, binds
the result via `set`, and returns `Void`. -/
theorem c7_define_cases :
    ∀ (l : List Object) (env : Environment),
      (eval_define [] env = (.error .emptyDefineOperands, env))
      ∧ (∀ first rest, l = first :: rest →
          (∀ s lo, first ≠ Object.symbol s lo) →
          eval_define l env = (.error (.expectSymbol first), env))
      ∧ (∀ name lo, l = [Object.symbol name lo] →
          eval_define l env = (.error (.missingBinding lo), env))
      ∧ (∀ name lo obj rest v env1, l = Object.symbol name lo :: obj :: rest →
          eval_obj obj env = (.ok v, env1) →
          eval_define l env = (.ok (.void none), env1.set name v)) := by
  intro l env
  refine ⟨by simp [eval_define], ?_, ?_, ?_⟩
  · intro first rest hl hns
    subst hl
    cases first
    case symbol v lo => exact absurd rfl (hns v lo)
    all_goals simp [eval_define]
  · intro name lo hl
    subst hl
    simp [eval_define, Object.loc]
  · intro name lo obj rest v env1 hl hok
    subst hl
    simp only [eval_define]
    split
    · rename_i o heq
      simp only [List.getElem?_cons_zero, Option.some.injEq] at heq
      subst heq
      rw [hok]
    · rename_i heq
      simp at heq

/-- C7 witness: the amended theorem applied to `(define x 10)` in the root
environment. -/
theorem c7_define_witness :
    eval_define [Object.symbol "x" none, Object.integer 10 none]
        (Environment.new none)
      = (.ok (.void none),
          (Environment.new none).set "x" (Object.integer 10 none)) := by
  exact (c7_define_cases [Object.symbol "x" none, Object.integer 10 none]
    (Environment.new none)).2.2.2 "x" none (Object.integer 10 none) []
    (Object.integer 10 none) (Environment.new none) rfl (by simp [eval_obj])

/-- C8: every atomic value — `Void`, `Integer`, `Float`, `Bool`, `String`,
`Closure` (`Lambda`) — evaluates to itself unchanged in every environment. -/
theorem c8_atomic_values_self_evaluate :
    ∀ (env : Environment) (loc : Option Location),
      eval_obj (.void loc) env = (.ok (.void loc), env)
      ∧ (∀ i : Int, eval_obj (.integer i loc) env = (.ok (.integer i loc), env))
      ∧ (∀ f : F64, eval_obj (.float f loc) env = (.ok (.float f loc), env))
      ∧ (∀ b : Bool, eval_obj (.bool b loc) env = (.ok (.bool b loc), env))
      ∧ (∀ s : String, eval_obj (.str s loc) env = (.ok (.str s loc), env))
      ∧ (∀ fd : FunctionDefinition,
          eval_obj (.lambda fd loc) env = (.ok (.lambda fd loc), env)) := by
  intro env loc
  refine ⟨?_, ?_, ?_, ?_, ?_, ?_⟩ <;> intros <;> simp [eval_obj]

/-- C9: `Environment::is_builtin` returns `false` on the very closures
`Environment::create_builtin_funcdef` builds (and hence on all 11 values
`Environment::new` binds), because the `"__builtin__"` sentinel location
sits only on the parameter entry while the `Lambda`'s own `loc` — the field
`is_builtin` inspects through `Object::loc` — is `None`. -/
theorem c9_created_builtins_not_recognised :
    Environment.is_builtin Environment.create_builtin_funcdef = false
    ∧ Environment.create_builtin_funcdef.loc = none
    ∧ ((fun o => match o with
        | Object.lambda fd _ => fd.params.map Param.loc
        | _ => []) Environment.create_builtin_funcdef
        = [some (Location.new (some "__builtin__") 0 0)])
    ∧ (Environment.new none).vars.all
        (fun p => !(Environment.is_builtin p.2)) = true := by
  exact ⟨rfl, rfl, rfl, rfl⟩

/-- C10: `eval_define` is atomic with respect to its own binding — whenever
it returns an `Err` (empty operand list, non-`Symbol` name, absent second
operand, or a failing value expression), the environment it returns is
exactly the one it was given: `env.set` runs only after the name is
validated and the value expression has evaluated successfully. -/
theorem c10_define_error_leaves_environment_unchanged :
    ∀ (l : List Object) (env : Environment) (e : EvalErr)
      (env' : Environment),
      eval_define l env = (.error e, env') → env' = env := by
  intro l env e env' h
  have hb : eval_define l env
      = eval_obj (.list (.symbol "define" none :: l) none) env := by
    simp [eval_obj, eval_list]
  rw [hb] at h
  exact eval_obj_error_env_stable _ env e env' h

/-- C10 witness: the theorem applied to `(define 5)`, whose first operand is
not a symbol. -/
theorem c10_define_error_witness :
    eval_define [Object.integer 5 none] (Environment.new none)
      = (.error (.expectSymbol (.integer 5 none)), Environment.new none)
    ∧ Environment.new none = Environment.new none := by
  have hd : eval_define [Object.integer 5 none] (Environment.new none)
      = (.error (.expectSymbol (.integer 5 none)), Environment.new none) := by
    simp [eval_define]
  exact ⟨hd, c10_define_error_leaves_environment_unchanged _ _ _ _ hd⟩
